import Mathlib

set_option maxRecDepth 20000

/-!
Verification development for the README generator `generate_readme.py` of the
Time_Series_Analysis repository.

The program is shallowly embedded: Python strings become Lean `String`s
(manipulated through structural helper functions on `List Char` that mirror the
Python string methods used by the source), the filesystem becomes an explicit
`FS` record passed to each function, the current time becomes an explicit
`now : String` parameter (the already-formatted timestamp), and the Python
`try/except` in `extract_notebook_metadata` becomes explicit `Except`-valued
phases whose partial results are retained when a later phase fails, exactly as
the in-place dictionary mutation of the source retains them.
-/

namespace ReadmeGen

/-! ## Python string primitives (structural, kernel-reducible) -/

/-- The whitespace characters stripped by Python `str.strip()`. -/
def isPySpace (c : Char) : Bool :=
  c = ' ' || c = '\t' || c = '\n' || c = '\r' || c = '\x0b' || c = '\x0c'

/-- Strip characters satisfying `p` from both ends of a character list. -/
def stripWhile (p : Char → Bool) (l : List Char) : List Char :=
  ((l.dropWhile p).reverse.dropWhile p).reverse

/-- Python `str.strip()` (no argument): strip whitespace from both ends. -/
def pyStrip (s : String) : String := String.mk (stripWhile isPySpace s.data)

/-- Python `str.strip('#')`: strip `'#'` characters from both ends. -/
def stripHash (s : String) : String := String.mk (stripWhile (fun c => c = '#') s.data)

/-- Python `str.startswith('#')`. -/
def startsWithHash (s : String) : Bool :=
  match s.data with
  | [] => false
  | c :: _ => c = '#'

/-- Split a character list at a separator character; mirrors Python
`str.split(sep)` for a one-character separator (always at least one piece). -/
def splitChar (sep : Char) : List Char → List (List Char)
  | [] => [[]]
  | c :: rest =>
    let r := splitChar sep rest
    if c = sep then [] :: r
    else
      match r with
      | [] => [[c]]
      | h :: t => (c :: h) :: t

/-- Python `str.split('\n')`. -/
def splitLines (s : String) : List String := (splitChar '\n' s.data).map String.mk

/-- `os.path.basename` for POSIX paths: the part after the last `'/'`. -/
def basename (p : String) : String := String.mk ((splitChar '/' p.data).getLastD [])

/-- Replace every (left-to-right, non-overlapping) occurrence of the non-empty
pattern `ph :: pt` by `rep`; mirrors Python `str.replace`.  The first argument
counts characters of an already-matched occurrence still to be skipped, so the
recursion is structural on the list (kernel-reducible). -/
def pyReplaceAux (ph : Char) (pt rep : List Char) : Nat → List Char → List Char
  | _, [] => []
  | skip + 1, _ :: rest => pyReplaceAux ph pt rep skip rest
  | 0, c :: rest =>
    if (ph :: pt).isPrefixOf (c :: rest) then rep ++ pyReplaceAux ph pt rep pt.length rest
    else c :: pyReplaceAux ph pt rep 0 rest

/-- Python `s.replace(pat, rep)`.  The source only calls it with the non-empty
patterns `".ipynb"` and `"_"`; for an empty pattern we return `s` unchanged. -/
def pyReplaceStr (s pat rep : String) : String :=
  match pat.data with
  | [] => s
  | ph :: pt => String.mk (pyReplaceAux ph pt rep.data 0 s.data)

/-- One step of Python `str.title()`: the boolean records whether the previous
character was cased (for ASCII input: alphabetic). -/
def pyTitleAux : Bool → List Char → List Char
  | _, [] => []
  | prevAlpha, c :: rest =>
    if c.isAlpha then (if prevAlpha then c.toLower else c.toUpper) :: pyTitleAux true rest
    else c :: pyTitleAux false rest

/-- Python `str.title()` (ASCII behaviour): uppercase every alphabetic character
that follows a non-alphabetic one, lowercase the other alphabetic characters. -/
def pythonTitle (s : String) : String := String.mk (pyTitleAux false s.data)

/-- Python `str.lower()` (ASCII behaviour). -/
def pyLower (s : String) : String := String.mk (s.data.map Char.toLower)

/-- Python `len(s)` (counts code points, like `List.length` on `data`). -/
def pyLen (s : String) : Nat := s.data.length

/-- Python `s[:n]`. -/
def pyTake (s : String) (n : Nat) : String := String.mk (s.data.take n)

/-- Python `s.endswith(suffix)`. -/
def strEndsWith (s suffix : String) : Bool := suffix.data.isSuffixOf s.data

/-- Does `l` contain `p` as a contiguous sublist? (Python `p in s`.) -/
def listContainsB (p : List Char) : List Char → Bool
  | [] => p.isEmpty
  | c :: rest => p.isPrefixOf (c :: rest) || listContainsB p rest

/-- Python `pat in s` for strings. -/
def containsSubstr (s pat : String) : Bool := listContainsB pat.data s.data

/-! ## Data model

A notebook cell as accessed by the source: `cell.cell_type` is always readable,
while `cell.source` is modelled as `Option String` — `none` models a cell
object without a `source` attribute, whose access raises (caught by the
source's `try/except`). A whole document is `Except String (List Cell)`:
`Except.error e` models `open`/`nbformat.read` raising an exception with
message `e`. -/

structure Cell where
  cell_type : String
  source : Option String
deriving Repr, DecidableEq

/-- The `metadata` dictionary built by `extract_notebook_metadata`. -/
structure NotebookMetadata where
  title : String
  description : String
  has_plotly : Bool
  cell_count : Nat
  markdown_cells : Nat
  code_cells : Nat
deriving Repr, DecidableEq

/-! ## `extract_notebook_metadata` (generate_readme.py lines 54-97) -/

/-- The default title (line 57):
`os.path.basename(p).replace('.ipynb', '').replace('_', ' ').title()`. -/
def defaultTitle (notebook_path : String) : String :=
  pythonTitle (pyReplaceStr (pyReplaceStr (basename notebook_path) ".ipynb" "") "_" " ")

/-- Lines 74-86: find the first markdown cell with non-empty stripped source;
from it compute the new title (first line starting with `'#'`, stripped of
`'#'` and whitespace) and the description (first non-empty non-heading line,
truncated at 100 characters with `"..."`).  A markdown cell whose `source`
attribute is missing raises (`Except.error`). -/
def titleDescPhase : List Cell → Except String (Option String × Option String)
  | [] => Except.ok (none, none)
  | c :: rest =>
    if c.cell_type = "markdown" then
      match c.source with
      | none => Except.error "AttributeError: source"
      | some src =>
        if pyStrip src = "" then titleDescPhase rest
        else
          let lines := splitLines (pyStrip src)
          let t := (lines.find? startsWithHash).map (fun l => pyStrip (stripHash l))
          let remaining := lines.filter (fun l => !startsWithHash l && pyStrip l != "")
          let d := remaining.head?.map
            (fun r => if pyLen r > 100 then pyTake r 100 ++ "..." else r)
          Except.ok (t, d)
    else titleDescPhase rest

/-- Lines 88-92: scan cells in order; on a code cell whose lowered source
contains `"plotly"` stop with `true`; a code cell without a `source` attribute
raises. -/
def plotlyPhase : List Cell → Except String Bool
  | [] => Except.ok false
  | c :: rest =>
    if c.cell_type = "code" then
      match c.source with
      | none => Except.error "AttributeError: source"
      | some src =>
        if containsSubstr (pyLower src) "plotly" then Except.ok true
        else plotlyPhase rest
    else plotlyPhase rest

/-- Lines 54-97.  Returns the metadata record together with the list of warning
lines printed (the `except` branch prints one warning).  The record is first
default-initialized; the phases of the `try` body update it in order, and a
raised exception leaves the updates already made in place, as in the source. -/
def extract_notebook_metadata (notebook_path : String) (doc : Except String (List Cell)) :
    NotebookMetadata × List String :=
  let metadata0 : NotebookMetadata :=
    { title := defaultTitle notebook_path, description := "", has_plotly := false,
      cell_count := 0, markdown_cells := 0, code_cells := 0 }
  let warn := fun (e : String) => "Warning: Could not read notebook " ++ notebook_path ++ ": " ++ e
  match doc with
  | Except.error e => (metadata0, [warn e])
  | Except.ok cells =>
    let m1 := { metadata0 with
      cell_count := cells.length,
      code_cells := (cells.filter (fun c => c.cell_type == "code")).length,
      markdown_cells := (cells.filter (fun c => c.cell_type == "markdown")).length }
    match titleDescPhase cells with
    | Except.error e => (m1, [warn e])
    | Except.ok (t, d) =>
      let m2 := { m1 with title := t.getD m1.title, description := d.getD m1.description }
      match plotlyPhase cells with
      | Except.error e => (m2, [warn e])
      | Except.ok b => ({ m2 with has_plotly := b }, [])

/-! ## Static configuration: `folder_info` (lines 15-52) -/

structure FolderInfo where
  title : String
  description : String
  objectives : List String
deriving Repr, DecidableEq

def folder_info : List (String × FolderInfo) := [
  ("exploratory_analysis",
   { title := "🧭 Exploratory Analysis",
     description := "Initial data exploration and feature engineering using retail sales time series data.",
     objectives := [
       "Perform comprehensive data quality checks and profiling",
       "Identify temporal patterns, trends, and seasonality",
       "Engineer features for time series forecasting models"] }),
  ("model_training",
   { title := "🛠️ Model Training",
     description := "Building and refining time series forecasting models using statistical and ML techniques.",
     objectives := [
       "Train Prophet and other forecasting models",
       "Optimize hyperparameters for best performance",
       "Implement cross-validation for time series data"] }),
  ("model_evaluation",
   { title := "📊 Model Evaluation",
     description := "Comprehensive model assessment using forecasting metrics and diagnostic analysis.",
     objectives := [
       "Compare models using MAPE, RMSE, and other forecasting metrics",
       "Analyze residuals and forecast accuracy patterns",
       "Select optimal model for production deployment"] }),
  ("results_visualization",
   { title := "📈 Results Visualization",
     description := "Interactive visualizations and dashboards for model results and business insights.",
     objectives := [
       "Create interactive Plotly dashboards for stakeholders",
       "Visualize forecast results and confidence intervals",
       "Generate business-ready reports and presentations"] })]

/-- Python `folder_info.get(folder_key)` (dictionary keys are unique). -/
def folderInfoGet (folder_key : String) : Option FolderInfo :=
  (folder_info.find? (fun kv => kv.fst == folder_key)).map Prod.snd

/-! ## Filesystem model

A directory entry as the builders see it: the file name, the parsed document
(`Except.error` models an unreadable/malformed file), and the already-formatted
last-modified date (`datetime.fromtimestamp(os.path.getmtime(...)).strftime('%Y-%m-%d')`).
The filesystem itself is a record of pure query functions; a run reads it but
never mutates it (generated READMEs are reported as `writes`, and are not
`.ipynb` files, so they never feed back into a later run over the same `FS`). -/

structure NotebookFile where
  name : String
  doc : Except String (List Cell)
  mtimeDate : String

structure FS where
  dirExists : String → Bool
  listdir : String → List NotebookFile
  htmlExists : String → Bool

/-! Lexicographic sorting of directory entries by file name, mirroring
`notebook_files.sort()` / `sorted(notebook_files)` on the (unique) names. -/

def charListLe : List Char → List Char → Bool
  | [], _ => true
  | _ :: _, [] => false
  | a :: atl, b :: btl => if a < b then true else if a = b then charListLe atl btl else false

def fileLe (a b : NotebookFile) : Bool := charListLe a.name.data b.name.data

def insertFileSorted (x : NotebookFile) : List NotebookFile → List NotebookFile
  | [] => [x]
  | y :: ys => if fileLe y x then y :: insertFileSorted x ys else x :: y :: ys

def sortFilesByName : List NotebookFile → List NotebookFile
  | [] => []
  | x :: xs => insertFileSorted x (sortFilesByName xs)

/-! ## `generate_notebook_links` (lines 99-109) -/

def generate_notebook_links (notebook_file folder : String) : String × String :=
  let base_name := pyReplaceStr notebook_file ".ipynb" ""
  ("notebooks/" ++ folder ++ "/" ++ notebook_file, "docs/" ++ base_name ++ ".html")

/-! ## `generate_folder_readme` (lines 111-186) -/

/-- Lines 134-154: the table row for one notebook, plus the warnings its
metadata extraction printed. -/
def notebookTableRow (fs : FS) (folder_path folder_key : String) (nf : NotebookFile) :
    String × List String :=
  let notebook_path := folder_path ++ "/" ++ nf.name
  let md := extract_notebook_metadata notebook_path nf.doc
  let links := generate_notebook_links nf.name folder_key
  let view0 := "[📓 Code](" ++ links.fst ++ ")"
  let view1 :=
    if fs.htmlExists ("docs/" ++ pyReplaceStr nf.name ".ipynb" ".html") then
      view0 ++ " • [🌐 HTML](" ++ links.snd ++ ")"
    else view0
  let view2 := if md.fst.has_plotly then view1 ++ " 📊" else view1
  let desc := if md.fst.description = "" then "Analysis notebook" else md.fst.description
  ("| **" ++ md.fst.title ++ "** | " ++ desc ++ " | " ++ view2 ++ " | " ++ nf.mtimeDate ++ " |",
   md.snd)

/-- Lines 111-186.  Returns the files written (path with its content as the
line list later joined by `'\n'`) and the console lines printed. -/
def generate_folder_readme (fs : FS) (folder_path folder_key now : String) :
    List (String × List String) × List String :=
  match folderInfoGet folder_key with
  | none => ([], ["Warning: No info found for folder " ++ folder_key])
  | some info =>
    let headerLines := [
      "# " ++ info.title, "",
      info.description, "",
      "## 📚 Notebooks", "",
      "| Notebook | Description | View Options | Last Updated |",
      "|----------|-------------|--------------|--------------|"]
    let notebook_files :=
      sortFilesByName ((fs.listdir folder_path).filter (fun f => strEndsWith f.name ".ipynb"))
    let rowResults := notebook_files.map (notebookTableRow fs folder_path folder_key)
    let notebooks_found := notebook_files.length
    let lines := headerLines ++ rowResults.map Prod.fst
      ++ (if notebooks_found = 0 then ["| *No notebooks yet* | | | |"] else [])
      ++ ["", "## 🎯 Key Objectives", ""]
      ++ info.objectives.map (fun o => "- " ++ o)
      ++ ["", "## 🔗 Navigation", "",
          "- [← Back to Main Project](../README.md)",
          "- [📊 Interactive Results](../docs/) - HTML versions with perfect Plotly rendering",
          "", "---"]
      ++ ["*Generated on " ++ now ++ "*"]
    ([(folder_path ++ "/README.md", lines)],
     (rowResults.map Prod.snd).flatten
       ++ ["✓ Generated README for " ++ folder_key ++ " ("
           ++ toString notebooks_found ++ " notebooks)"])

/-! ## `generate_main_readme` (lines 188-244) -/

/-- Lines 202-217 ("Quick Access" section): per existing folder, a subheading
and one link line per notebook whose rendered HTML file exists.  Also returns
the warnings printed by the metadata extractions. -/
def quickAccessLines (fs : FS) : List (String × FolderInfo) → List String × List String
  | [] => ([], [])
  | kv :: rest =>
    let tailRes := quickAccessLines fs rest
    let folder_path := "notebooks/" ++ kv.fst
    if fs.dirExists folder_path then
      let files :=
        sortFilesByName ((fs.listdir folder_path).filter (fun f => strEndsWith f.name ".ipynb"))
      let entries := files.map (fun nf =>
        let md := extract_notebook_metadata (folder_path ++ "/" ++ nf.name) nf.doc
        let html_file := pyReplaceStr nf.name ".ipynb" ".html"
        ((if fs.htmlExists ("docs/" ++ html_file) then
            ["- [📊 " ++ md.fst.title ++ "](docs/" ++ html_file ++ ")"]
          else []), md.snd))
      ((("### " ++ kv.snd.title) :: ((entries.map Prod.fst).flatten ++ [""])) ++ tailRes.fst,
       (entries.map Prod.snd).flatten ++ tailRes.snd)
    else tailRes

/-- Lines 227-233 ("Technical Notebooks" section). -/
def technicalLines (fs : FS) : List (String × FolderInfo) → List String
  | [] => []
  | kv :: rest =>
    let folder_path := "notebooks/" ++ kv.fst
    if fs.dirExists folder_path then
      ("### [" ++ kv.snd.title ++ "](notebooks/" ++ kv.fst ++ "/)")
        :: kv.snd.description :: "" :: technicalLines fs rest
    else technicalLines fs rest

/-- Lines 188-244. -/
def generate_main_readme (fs : FS) (now : String) :
    List (String × List String) × List String :=
  let headerLines := [
    "# 📊 Time Series Analysis - Notebook Overview", "",
    "Auto-generated overview of all analysis notebooks in this project.", "",
    "## 🎯 Quick Access - Interactive Results", "",
    "*Perfect for presentations and stakeholders - all plots are interactive:*", ""]
  let quick := quickAccessLines fs folder_info
  let techHeader := ["## 👨‍💻 Technical Notebooks", "", "*For developers and data scientists:*", ""]
  let lines := headerLines ++ quick.fst ++ techHeader ++ technicalLines fs folder_info
    ++ ["---"]
    ++ ["*Auto-generated on " ++ now ++ " | Run `python generate_readme.py` to update*"]
  ([("NOTEBOOKS_README.md", lines)], quick.snd ++ ["✓ Generated main notebooks README"])

/-! ## `main` (lines 246-278) -/

/-- Lines 257-264: the per-folder loop. Returns (writes, console, counter). -/
def processFolders (fs : FS) (now : String) :
    List (String × FolderInfo) → List (String × List String) × List String × Nat
  | [] => ([], [], 0)
  | kv :: rest =>
    let folder_path := "notebooks/" ++ kv.fst
    let tailRes := processFolders fs now rest
    if fs.dirExists folder_path then
      let r := generate_folder_readme fs folder_path kv.fst now
      (r.fst ++ tailRes.fst, r.snd ++ tailRes.2.1, tailRes.2.2 + 1)
    else
      (tailRes.fst, ("⚠️  Folder not found: " ++ folder_path) :: tailRes.2.1, tailRes.2.2)

/-- Lines 272-275: the final listing of created files. -/
def finalListing (fs : FS) : List String :=
  (folder_info.filter (fun kv => fs.dirExists ("notebooks/" ++ kv.fst))).map
    (fun kv => "   - notebooks/" ++ kv.fst ++ "/README.md")

structure MainResult where
  exitCode : Nat
  writes : List (String × List String)
  console : List String
deriving Repr

/-- Lines 246-278: the orchestrator.  `sys.exit(1)` becomes exit code 1 with no
further effects; normal completion is exit code 0. -/
def mainRun (fs : FS) (now : String) : MainResult :=
  let console0 := ["🚀 Generating README files for notebook directories..."]
  if fs.dirExists "notebooks" then
    let folders := processFolders fs now folder_info
    let mainR := generate_main_readme fs now
    { exitCode := 0,
      writes := folders.fst ++ mainR.fst,
      console := console0 ++ folders.2.1 ++ mainR.snd
        ++ ["\n✅ Complete! Generated README files for " ++ toString folders.2.2 ++ " folders.",
            "📝 Files created:",
            "   - NOTEBOOKS_README.md (main overview)"]
        ++ finalListing fs }
  else
    { exitCode := 1, writes := [],
      console := console0 ++ ["❌ Error: notebooks directory not found!"] }

/-! ## Helper lemmas about substring containment -/

lemma isPrefixOf_self_append (p r : List Char) : p.isPrefixOf (p ++ r) = true := by simp

lemma listContainsB_self_append (p r : List Char) : listContainsB p (p ++ r) = true := by
  cases p with
  | nil => cases r <;> simp [listContainsB, List.isPrefixOf]
  | cons a q => simp [listContainsB, isPrefixOf_self_append]

lemma listContainsB_mid (a p r : List Char) : listContainsB p (a ++ (p ++ r)) = true := by
  induction a with
  | nil => simpa using listContainsB_self_append p r
  | cons c atl ih => simp [listContainsB, ih]

lemma string_data_append (a b : String) : (a ++ b).data = a.data ++ b.data := rfl

lemma containsSubstr_mid (a p r : String) : containsSubstr (a ++ (p ++ r)) p = true := by
  simpa [containsSubstr, string_data_append] using listContainsB_mid a.data p.data r.data

lemma containsSubstr_right (a p : String) : containsSubstr (a ++ p) p = true := by
  have h := listContainsB_mid a.data p.data []
  simpa [containsSubstr, string_data_append] using h

/-- A sample filesystem used by the concrete witnesses: the base `notebooks`
directory exists, every other directory is absent, no files, no HTML exports. -/
def fsSample : FS :=
  { dirExists := fun p => p == "notebooks",
    listdir := fun _ => [],
    htmlExists := fun _ => false }

/-! ## C1 -/

/-- C1: for every notebook path whose document cannot be opened or parsed,
`extract_notebook_metadata` catches the failure, emits a warning referencing
the path and the error, and returns the default-initialized record (default
title derived from the file name, empty description, plotting flag false, all
three cell counts zero) instead of propagating the exception. -/
theorem C1_extract_error_returns_default (path e : String) :
    (extract_notebook_metadata path (Except.error e)).fst =
      { title := pythonTitle (pyReplaceStr (pyReplaceStr (basename path) ".ipynb" "") "_" " "),
        description := "", has_plotly := false,
        cell_count := 0, markdown_cells := 0, code_cells := 0 }
    ∧ (extract_notebook_metadata path (Except.error e)).snd
        = ["Warning: Could not read notebook " ++ path ++ ": " ++ e]
    ∧ containsSubstr ("Warning: Could not read notebook " ++ path ++ ": " ++ e) path = true
    ∧ containsSubstr ("Warning: Could not read notebook " ++ path ++ ": " ++ e) e = true := by
  refine ⟨rfl, rfl, ?_, ?_⟩
  · have h : "Warning: Could not read notebook " ++ path ++ ": " ++ e
        = "Warning: Could not read notebook " ++ (path ++ (": " ++ e)) := by
      rw [String.append_assoc, String.append_assoc]
    rw [h]
    exact containsSubstr_mid _ _ _
  · exact containsSubstr_right _ _

/-! ## C10 -/

lemma filter_two_types_le (cells : List Cell) :
    (cells.filter (fun c => c.cell_type == "markdown")).length
      + (cells.filter (fun c => c.cell_type == "code")).length ≤ cells.length := by
  induction cells with
  | nil => simp
  | cons c rest ih =>
    by_cases h1 : c.cell_type = "markdown" <;> by_cases h2 : c.cell_type = "code"
    · rw [h1] at h2
      exact absurd h2 (by decide)
    · simp [List.filter_cons, h1, h2]; omega
    · simp [List.filter_cons, h1, h2]; omega
    · simp [List.filter_cons, h1, h2]; omega

/-- C10: every record returned by `extract_notebook_metadata` satisfies the
count invariant: the three counts are non-negative and the markdown count plus
the code count is at most the total cell count. -/
theorem C10_count_invariant (path : String) (doc : Except String (List Cell)) :
    0 ≤ (extract_notebook_metadata path doc).fst.cell_count
    ∧ 0 ≤ (extract_notebook_metadata path doc).fst.markdown_cells
    ∧ 0 ≤ (extract_notebook_metadata path doc).fst.code_cells
    ∧ (extract_notebook_metadata path doc).fst.markdown_cells
        + (extract_notebook_metadata path doc).fst.code_cells
        ≤ (extract_notebook_metadata path doc).fst.cell_count := by
  refine ⟨Nat.zero_le _, Nat.zero_le _, Nat.zero_le _, ?_⟩
  cases doc with
  | error e => simp [extract_notebook_metadata]
  | ok cells =>
    have h := filter_two_types_le cells
    cases htd : titleDescPhase cells with
    | error e => simpa [extract_notebook_metadata, htd] using h
    | ok td =>
      obtain ⟨t, d⟩ := td
      cases hp : plotlyPhase cells with
      | error e => simpa [extract_notebook_metadata, htd, hp] using h
      | ok b => simpa [extract_notebook_metadata, htd, hp] using h

/-! ## C9 -/

/-- C9: `extract_notebook_metadata` is total — for every path and every
document (well-formed, malformed or unreadable) it returns a complete record
and never propagates an exception; moreover the cell counts are always those of
the parsed document whenever parsing succeeded, and when a later phase fails
(e.g. a code cell without a `source` attribute) the already-computed title and
description are retained while the not-yet-computed plotting flag stays at its
default, with the failure turned into a warning. -/
theorem C9_extract_total (path : String) (doc : Except String (List Cell)) :
    ((extract_notebook_metadata path doc).fst.cell_count,
     (extract_notebook_metadata path doc).fst.code_cells,
     (extract_notebook_metadata path doc).fst.markdown_cells)
      = (match doc with
         | Except.error _ => (0, 0, 0)
         | Except.ok cells =>
             (cells.length,
              (cells.filter (fun c => c.cell_type == "code")).length,
              (cells.filter (fun c => c.cell_type == "markdown")).length))
    ∧ (∀ cells t d, doc = Except.ok cells → titleDescPhase cells = Except.ok (t, d) →
        (extract_notebook_metadata path doc).fst.title = t.getD (defaultTitle path)
        ∧ (extract_notebook_metadata path doc).fst.description = d.getD "")
    ∧ (∀ cells e, doc = Except.ok cells → plotlyPhase cells = Except.error e →
        (extract_notebook_metadata path doc).fst.has_plotly = false
        ∧ (extract_notebook_metadata path doc).snd ≠ []) := by
  refine ⟨?_, ?_, ?_⟩
  · cases doc with
    | error e => rfl
    | ok cells =>
      cases htd : titleDescPhase cells with
      | error e => simp [extract_notebook_metadata, htd]
      | ok td =>
        obtain ⟨t, d⟩ := td
        cases hp : plotlyPhase cells with
        | error e => simp [extract_notebook_metadata, htd, hp]
        | ok b => simp [extract_notebook_metadata, htd, hp]
  · intro cells t d hdoc htd
    subst hdoc
    cases hp : plotlyPhase cells with
    | error e => constructor <;> simp [extract_notebook_metadata, htd, hp, defaultTitle]
    | ok b => constructor <;> simp [extract_notebook_metadata, htd, hp, defaultTitle]
  · intro cells e hdoc hp
    subst hdoc
    cases htd : titleDescPhase cells with
    | error e2 => constructor <;> simp [extract_notebook_metadata, htd]
    | ok td =>
      obtain ⟨t, d⟩ := td
      constructor <;> simp [extract_notebook_metadata, htd, hp]

/-- Witness for C9 at a concrete input: a parsed notebook whose second cell is
a code cell without a `source` attribute.  The counts computed before the
failure are retained and the plotting flag stays at its default. -/
theorem C9_extract_total_witness :
    ((extract_notebook_metadata "nb.ipynb"
        (Except.ok [⟨"markdown", some "# T"⟩, ⟨"code", none⟩])).fst.cell_count,
     (extract_notebook_metadata "nb.ipynb"
        (Except.ok [⟨"markdown", some "# T"⟩, ⟨"code", none⟩])).fst.code_cells,
     (extract_notebook_metadata "nb.ipynb"
        (Except.ok [⟨"markdown", some "# T"⟩, ⟨"code", none⟩])).fst.markdown_cells) = (2, 1, 1)
    ∧ (extract_notebook_metadata "nb.ipynb"
        (Except.ok [⟨"markdown", some "# T"⟩, ⟨"code", none⟩])).fst.has_plotly = false := by
  constructor
  · exact (C9_extract_total "nb.ipynb"
      (Except.ok [⟨"markdown", some "# T"⟩, ⟨"code", none⟩])).1.trans (by decide)
  · exact ((C9_extract_total "nb.ipynb"
      (Except.ok [⟨"markdown", some "# T"⟩, ⟨"code", none⟩])).2.2
      [⟨"markdown", some "# T"⟩, ⟨"code", none⟩] "AttributeError: source" rfl rfl).1

/-! ## Title and description extraction: C2, C3, C4 -/

/-- A cell skipped by the title/description scan (lines 75-76): either not a
markdown cell, or a markdown cell whose readable source strips to empty. -/
def skippedForTitle (c : Cell) : Prop :=
  c.cell_type ≠ "markdown" ∨ ∃ s, c.source = some s ∧ pyStrip s = ""

lemma titleDescPhase_skip (pre rest : List Cell) (h : ∀ c ∈ pre, skippedForTitle c) :
    titleDescPhase (pre ++ rest) = titleDescPhase rest := by
  induction pre with
  | nil => rfl
  | cons c pretl ih =>
    have hc := h c (List.mem_cons_self c pretl)
    have htl : ∀ x ∈ pretl, skippedForTitle x := fun x hx => h x (List.mem_cons_of_mem c hx)
    rcases hc with hty | ⟨s, hs, hss⟩
    · rw [List.cons_append]
      simp only [titleDescPhase, if_neg hty]
      exact ih htl
    · by_cases hty : c.cell_type = "markdown"
      · rw [List.cons_append]
        simp only [titleDescPhase, if_pos hty, hs, if_pos hss]
        exact ih htl
      · rw [List.cons_append]
        simp only [titleDescPhase, if_neg hty]
        exact ih htl

lemma titleDescPhase_found (pre post : List Cell) (c : Cell) (src : String)
    (hpre : ∀ x ∈ pre, skippedForTitle x) (hty : c.cell_type = "markdown")
    (hsrc : c.source = some src) (hne : pyStrip src ≠ "") :
    titleDescPhase (pre ++ c :: post) =
      Except.ok
        (((splitLines (pyStrip src)).find? startsWithHash).map (fun l => pyStrip (stripHash l)),
         ((splitLines (pyStrip src)).filter
             (fun l => !startsWithHash l && pyStrip l != "")).head?.map
           (fun r => if pyLen r > 100 then pyTake r 100 ++ "..." else r)) := by
  rw [titleDescPhase_skip pre (c :: post) hpre]
  simp only [titleDescPhase, if_pos hty, hsrc, if_neg hne]

/-- Modelled from the spec's words of C2: the heading line with only its
*leading* heading markers stripped, then surrounding whitespace stripped. -/
def specTitleLeadingStrip (l : String) : String :=
  pyStrip (String.mk (l.data.dropWhile (fun c => c = '#')))

/-- C2 counterexample: on a first markdown cell whose heading line is
`"# Foo #"`, the code strips `'#'` from *both* ends (Python `strip('#')`), so
the extracted title is `"Foo"`, while the claim's leading-markers-only strip
yields `"Foo #"`.  The claim as stated is therefore false at this input. -/
theorem C2_title_strip_counterexample :
    (extract_notebook_metadata "nb.ipynb"
        (Except.ok [⟨"markdown", some "# Foo #"⟩])).fst.title = "Foo"
    ∧ specTitleLeadingStrip "# Foo #" = "Foo #"
    ∧ (extract_notebook_metadata "nb.ipynb"
        (Except.ok [⟨"markdown", some "# Foo #"⟩])).fst.title
        ≠ specTitleLeadingStrip "# Foo #" :=
  ⟨by decide, by decide, by decide⟩

/-- C2 (amended): for every notebook whose first markdown cell with non-empty
text contains a heading-marker line, the extracted title equals the first such
line with its leading *and trailing* heading markers and surrounding whitespace
stripped; earlier non-qualifying cells are skipped and later markdown cells are
ignored. -/
theorem C2_title_from_first_heading (path : String) (pre post : List Cell) (c : Cell)
    (src l : String)
    (hpre : ∀ x ∈ pre, skippedForTitle x) (hty : c.cell_type = "markdown")
    (hsrc : c.source = some src) (hne : pyStrip src ≠ "")
    (hfind : (splitLines (pyStrip src)).find? startsWithHash = some l) :
    (extract_notebook_metadata path (Except.ok (pre ++ c :: post))).fst.title
      = pyStrip (stripHash l) := by
  have htd := titleDescPhase_found pre post c src hpre hty hsrc hne
  rw [hfind] at htd
  cases hp : plotlyPhase (pre ++ c :: post) with
  | error e => simp [extract_notebook_metadata, htd, hp]
  | ok b => simp [extract_notebook_metadata, htd, hp]

/-- Witness for C2 at a concrete input: skipped leading cells, a first
qualifying markdown cell headed `"# Foo Bar"`, and a later markdown cell that
is ignored; the title is `"Foo Bar"`. -/
theorem C2_title_witness :
    (extract_notebook_metadata "nb.ipynb"
        (Except.ok ([⟨"code", some "print(1)"⟩] ++ (⟨"markdown", some "# Foo Bar\nIntro line"⟩ : Cell)
          :: [⟨"markdown", some "# Other"⟩]))).fst.title = pyStrip (stripHash "# Foo Bar")
    ∧ pyStrip (stripHash "# Foo Bar") = "Foo Bar" := by
  constructor
  · exact C2_title_from_first_heading "nb.ipynb" [⟨"code", some "print(1)"⟩]
      [⟨"markdown", some "# Other"⟩] ⟨"markdown", some "# Foo Bar\nIntro line"⟩
      "# Foo Bar\nIntro line" "# Foo Bar"
      (by intro x hx
          have hx' : x = ⟨"code", some "print(1)"⟩ := by simpa using hx
          subst hx'
          exact Or.inl (by decide))
      rfl rfl (by decide) (by decide)
  · decide

/-- C3: the description is the first line of the first non-empty markdown cell
that is non-empty and does not start with a heading marker; a line longer than
100 characters is stored as exactly its first 100 characters followed by an
ellipsis, and a line of at most 100 characters is stored unchanged. -/
theorem C3_description_first_line (path : String) (pre post : List Cell) (c : Cell)
    (src r : String)
    (hpre : ∀ x ∈ pre, skippedForTitle x) (hty : c.cell_type = "markdown")
    (hsrc : c.source = some src) (hne : pyStrip src ≠ "")
    (hhead : ((splitLines (pyStrip src)).filter
        (fun l => !startsWithHash l && pyStrip l != "")).head? = some r) :
    (pyLen r > 100 →
        (extract_notebook_metadata path (Except.ok (pre ++ c :: post))).fst.description
          = pyTake r 100 ++ "...")
    ∧ (pyLen r ≤ 100 →
        (extract_notebook_metadata path (Except.ok (pre ++ c :: post))).fst.description = r) := by
  have htd := titleDescPhase_found pre post c src hpre hty hsrc hne
  rw [hhead] at htd
  constructor
  · intro hlong
    cases hp : plotlyPhase (pre ++ c :: post) with
    | error e => simp [extract_notebook_metadata, htd, hp, hlong]
    | ok b => simp [extract_notebook_metadata, htd, hp, hlong]
  · intro hshort
    have hnotlong : ¬ pyLen r > 100 := by omega
    cases hp : plotlyPhase (pre ++ c :: post) with
    | error e => simp [extract_notebook_metadata, htd, hp, hnotlong]
    | ok b => simp [extract_notebook_metadata, htd, hp, hnotlong]

/-- Witness for C3 at concrete inputs: a 150-character candidate line is stored
as its first 100 characters plus `"..."`; a short line is stored unchanged. -/
theorem C3_description_witness :
    (extract_notebook_metadata "nb.ipynb"
        (Except.ok [⟨"markdown", some (String.mk (List.replicate 150 'a'))⟩])).fst.description
      = pyTake (String.mk (List.replicate 150 'a')) 100 ++ "..."
    ∧ (extract_notebook_metadata "nb2.ipynb"
        (Except.ok [⟨"markdown", some "# H\nShort line"⟩])).fst.description = "Short line" := by
  constructor
  · exact (C3_description_first_line "nb.ipynb" [] [] ⟨"markdown", some (String.mk (List.replicate 150 'a'))⟩
      (String.mk (List.replicate 150 'a')) (String.mk (List.replicate 150 'a'))
      (by intro x hx; cases hx) rfl rfl (by decide) (by decide)).1 (by decide)
  · exact (C3_description_first_line "nb2.ipynb" [] [] ⟨"markdown", some "# H\nShort line"⟩
      "# H\nShort line" "Short line"
      (by intro x hx; cases hx) rfl rfl (by decide) (by decide)).2 (by decide)

/-- Modelled from the spec's words of C4: the base name with *the notebook
extension* removed (a single trailing `".ipynb"`), underscores replaced by
spaces, and title-casing applied. -/
def specDefaultTitle (p : String) : String :=
  let base := basename p
  let noExt :=
    if strEndsWith base ".ipynb" then String.mk (base.data.take (base.data.length - 6)) else base
  pythonTitle (pyReplaceStr noExt "_" " ")

/-- C4 counterexample: the code removes *every* occurrence of the substring
`".ipynb"` from the base name (`str.replace`), not just the trailing
extension.  For the file `"a.ipynb.ipynb"` (no markdown heading) the code
yields the title `"A"`, while the claim's extension-removal yields
`"A.Ipynb"`.  The claim as stated is therefore false at this input. -/
theorem C4_default_title_counterexample :
    (extract_notebook_metadata "a.ipynb.ipynb" (Except.ok [])).fst.title = "A"
    ∧ specDefaultTitle "a.ipynb.ipynb" = "A.Ipynb"
    ∧ (extract_notebook_metadata "a.ipynb.ipynb" (Except.ok [])).fst.title
        ≠ specDefaultTitle "a.ipynb.ipynb" :=
  ⟨by decide, by decide, by decide⟩

lemma titleDescPhase_no_heading (cells : List Cell)
    (h : ∀ c ∈ cells, c.cell_type = "markdown" → ∀ s, c.source = some s →
        ∀ l ∈ splitLines (pyStrip s), startsWithHash l = false) :
    (∃ e, titleDescPhase cells = Except.error e)
    ∨ (∃ d, titleDescPhase cells = Except.ok (none, d)) := by
  induction cells with
  | nil => exact Or.inr ⟨none, rfl⟩
  | cons c rest ih =>
    have htl : ∀ x ∈ rest, x.cell_type = "markdown" → ∀ s, x.source = some s →
        ∀ l ∈ splitLines (pyStrip s), startsWithHash l = false :=
      fun x hx => h x (List.mem_cons_of_mem c hx)
    by_cases hty : c.cell_type = "markdown"
    · cases hs : c.source with
      | none => exact Or.inl ⟨"AttributeError: source", by simp [titleDescPhase, hty, hs]⟩
      | some s =>
        by_cases hss : pyStrip s = ""
        · have hrec := ih htl
          simpa only [titleDescPhase, if_pos hty, hs, if_pos hss] using hrec
        · right
          refine ⟨((splitLines (pyStrip s)).filter
              (fun l => !startsWithHash l && pyStrip l != "")).head?.map
            (fun r => if pyLen r > 100 then pyTake r 100 ++ "..." else r), ?_⟩
          have hfind : (splitLines (pyStrip s)).find? startsWithHash = none :=
            List.find?_eq_none.mpr (fun l hl => by
              simp [h c (List.mem_cons_self c rest) hty s hs l hl])
          simp only [titleDescPhase, if_pos hty, hs, if_neg hss, hfind, Option.map_none']
    · have hrec := ih htl
      simpa only [titleDescPhase, if_neg hty] using hrec

/-- C4 (amended): for every notebook containing no markdown heading line, the
extracted title equals the file's base name with every occurrence of the
substring `".ipynb"` removed, underscores replaced by spaces, and title-casing
applied. -/
theorem C4_default_title (path : String) (cells : List Cell)
    (h : ∀ c ∈ cells, c.cell_type = "markdown" → ∀ s, c.source = some s →
        ∀ l ∈ splitLines (pyStrip s), startsWithHash l = false) :
    (extract_notebook_metadata path (Except.ok cells)).fst.title
      = pythonTitle (pyReplaceStr (pyReplaceStr (basename path) ".ipynb" "") "_" " ") := by
  rcases titleDescPhase_no_heading cells h with ⟨e, htd⟩ | ⟨d, htd⟩
  · simp [extract_notebook_metadata, htd, defaultTitle]
  · cases hp : plotlyPhase cells with
    | error e => simp [extract_notebook_metadata, htd, hp, defaultTitle]
    | ok b => simp [extract_notebook_metadata, htd, hp, defaultTitle]

/-- Witness for C4 at a concrete input: `"my_notebook.ipynb"` with a single
heading-free markdown cell titles as `"My Notebook"`. -/
theorem C4_default_title_witness :
    (extract_notebook_metadata "my_notebook.ipynb"
        (Except.ok [⟨"markdown", some "Just text"⟩])).fst.title
      = pythonTitle (pyReplaceStr (pyReplaceStr (basename "my_notebook.ipynb") ".ipynb" "") "_" " ")
    ∧ pythonTitle (pyReplaceStr (pyReplaceStr (basename "my_notebook.ipynb") ".ipynb" "") "_" " ")
      = "My Notebook" := by
  constructor
  · exact C4_default_title "my_notebook.ipynb" [⟨"markdown", some "Just text"⟩] (by
      intro c hc hty s hs l hl
      have hc' : c = ⟨"markdown", some "Just text"⟩ := by simpa using hc
      subst hc'
      have hs' : s = "Just text" := by
        have := hs
        simp only at this
        exact (Option.some.inj this).symm
      subst hs'
      have hsplit : splitLines (pyStrip "Just text") = ["Just text"] := by decide
      rw [hsplit] at hl
      have hl' : l = "Just text" := by simpa using hl
      subst hl'
      decide)
  · decide

/-! ## Plotting flag: C5 -/

lemma titleDescPhase_total (cells : List Cell)
    (h : ∀ c ∈ cells, c.cell_type = "markdown" → ∃ s, c.source = some s) :
    ∃ td, titleDescPhase cells = Except.ok td := by
  induction cells with
  | nil => exact ⟨(none, none), rfl⟩
  | cons c rest ih =>
    have htl : ∀ x ∈ rest, x.cell_type = "markdown" → ∃ s, x.source = some s :=
      fun x hx => h x (List.mem_cons_of_mem c hx)
    by_cases hty : c.cell_type = "markdown"
    · obtain ⟨s, hs⟩ := h c (List.mem_cons_self c rest) hty
      by_cases hss : pyStrip s = ""
      · obtain ⟨td, htd⟩ := ih htl
        exact ⟨td, by simpa only [titleDescPhase, if_pos hty, hs, if_pos hss] using htd⟩
      · exact ⟨(((splitLines (pyStrip s)).find? startsWithHash).map (fun l => pyStrip (stripHash l)),
          ((splitLines (pyStrip s)).filter
              (fun l => !startsWithHash l && pyStrip l != "")).head?.map
            (fun r => if pyLen r > 100 then pyTake r 100 ++ "..." else r)),
          by simp only [titleDescPhase, if_pos hty, hs, if_neg hss]⟩
    · obtain ⟨td, htd⟩ := ih htl
      exact ⟨td, by simpa only [titleDescPhase, if_neg hty] using htd⟩

lemma plotlyPhase_total (cells : List Cell)
    (h : ∀ c ∈ cells, c.cell_type = "code" → ∃ s, c.source = some s) :
    plotlyPhase cells
      = Except.ok (cells.any (fun c => c.cell_type == "code"
          && containsSubstr (pyLower (c.source.getD "")) "plotly")) := by
  induction cells with
  | nil => rfl
  | cons c rest ih =>
    have htl : ∀ x ∈ rest, x.cell_type = "code" → ∃ s, x.source = some s :=
      fun x hx => h x (List.mem_cons_of_mem c hx)
    by_cases hty : c.cell_type = "code"
    · obtain ⟨s, hs⟩ := h c (List.mem_cons_self c rest) hty
      by_cases hcont : containsSubstr (pyLower s) "plotly" = true
      · simp [plotlyPhase, hty, hs, hcont, List.any_cons]
      · have hcont' : containsSubstr (pyLower s) "plotly" = false := by
          simpa using hcont
        simp [plotlyPhase, hty, hs, hcont', List.any_cons, ih htl]
    · have hty' : (c.cell_type == "code") = false := by simpa using hty
      simp [plotlyPhase, hty, hty', List.any_cons, ih htl]

/-- C5: for a parsed notebook all of whose cells have readable source, the
plotting-library flag is true iff some code-type cell's source text contains a
case-insensitive match for `"plotly"`. -/
theorem C5_plotly_iff (path : String) (cells : List Cell)
    (hall : ∀ c ∈ cells, ∃ s, c.source = some s) :
    (extract_notebook_metadata path (Except.ok cells)).fst.has_plotly = true
      ↔ ∃ c ∈ cells, c.cell_type = "code"
          ∧ ∃ s, c.source = some s ∧ containsSubstr (pyLower s) "plotly" = true := by
  obtain ⟨td, htd⟩ := titleDescPhase_total cells (fun c hc _ => hall c hc)
  obtain ⟨t, d⟩ := td
  have hp := plotlyPhase_total cells (fun c hc _ => hall c hc)
  have hflag : (extract_notebook_metadata path (Except.ok cells)).fst.has_plotly
      = cells.any (fun c => c.cell_type == "code"
          && containsSubstr (pyLower (c.source.getD "")) "plotly") := by
    simp [extract_notebook_metadata, htd, hp]
  rw [hflag, List.any_eq_true]
  constructor
  · rintro ⟨c, hc, hpred⟩
    obtain ⟨s, hs⟩ := hall c hc
    rw [hs] at hpred
    simp only [Option.getD_some, Bool.and_eq_true, beq_iff_eq] at hpred
    exact ⟨c, hc, hpred.1, s, hs, hpred.2⟩
  · rintro ⟨c, hc, hty, s, hs, hcont⟩
    exact ⟨c, hc, by simp [hty, hs, hcont]⟩

/-- Witness for C5 at a concrete input: a code cell containing
`"Plotly.express"` sets the flag (case-insensitive match). -/
theorem C5_plotly_witness :
    (extract_notebook_metadata "nb.ipynb"
        (Except.ok [⟨"code", some "import Plotly.express as px"⟩])).fst.has_plotly = true := by
  refine (C5_plotly_iff "nb.ipynb" [⟨"code", some "import Plotly.express as px"⟩] ?_).mpr ?_
  · intro c hc
    have hc' : c = ⟨"code", some "import Plotly.express as px"⟩ := by simpa using hc
    subst hc'
    exact ⟨"import Plotly.express as px", rfl⟩
  · exact ⟨⟨"code", some "import Plotly.express as px"⟩, by simp, rfl,
      "import Plotly.express as px", rfl, by decide⟩

/-! ## Folder builder on a missing descriptor: C6 -/

/-- C6: for every folder identifier absent from the descriptor set, the folder
README builder performs no file write, emits exactly one logged warning naming
the folder, and returns. -/
theorem C6_missing_descriptor (fs : FS) (folder_path folder_key now : String)
    (h : folderInfoGet folder_key = none) :
    (generate_folder_readme fs folder_path folder_key now).fst = []
    ∧ (generate_folder_readme fs folder_path folder_key now).snd
        = ["Warning: No info found for folder " ++ folder_key]
    ∧ containsSubstr ("Warning: No info found for folder " ++ folder_key) folder_key = true := by
  have hg : generate_folder_readme fs folder_path folder_key now
      = ([], ["Warning: No info found for folder " ++ folder_key]) := by
    unfold generate_folder_readme
    rw [h]
  rw [hg]
  exact ⟨rfl, rfl, containsSubstr_right _ _⟩

/-- Witness for C6 at a concrete input: the identifier `"unknown_folder"` is
not among the four descriptors; nothing is written. -/
theorem C6_missing_descriptor_witness :
    folderInfoGet "unknown_folder" = none
    ∧ (generate_folder_readme fsSample "notebooks/unknown_folder" "unknown_folder"
        "2026-01-01 00:00").fst = [] := by
  refine ⟨by decide, ?_⟩
  exact (C6_missing_descriptor fsSample "notebooks/unknown_folder" "unknown_folder"
    "2026-01-01 00:00" (by decide)).1

/-! ## Orchestrator: C7 -/

lemma processFolders_warn (fs : FS) (now : String) (l : List (String × FolderInfo))
    (kv : String × FolderInfo) (hkv : kv ∈ l)
    (hdir : fs.dirExists ("notebooks/" ++ kv.fst) = false) :
    ("⚠️  Folder not found: " ++ ("notebooks/" ++ kv.fst)) ∈ (processFolders fs now l).2.1 := by
  induction l with
  | nil => cases hkv
  | cons hd tl ih =>
    rcases List.mem_cons.mp hkv with rfl | hmem
    · simp [processFolders, hdir]
    · cases hd' : fs.dirExists ("notebooks/" ++ hd.fst) with
      | true =>
        simp only [processFolders, hd', if_pos]
        exact List.mem_append_right _ (ih hmem)
      | false =>
        simp only [processFolders, hd', Bool.false_eq_true, if_neg, not_false_iff]
        exact List.mem_cons_of_mem _ (ih hmem)

lemma generate_main_readme_write (fs : FS) (now : String) :
    ∃ L, (generate_main_readme fs now).fst = [("NOTEBOOKS_README.md", L)] :=
  ⟨_, rfl⟩

/-- C7: the orchestrator exits with a non-zero status after printing an error,
and does nothing else, exactly when the base `notebooks` directory is missing;
when the base directory exists the run completes with exit status 0, absent
folder subdirectories are warned about and skipped, and the main README is
still written. -/
theorem C7_orchestrator_exit (fs : FS) (now : String) :
    ((mainRun fs now).exitCode ≠ 0 ↔ fs.dirExists "notebooks" = false)
    ∧ (fs.dirExists "notebooks" = false →
        (mainRun fs now).writes = []
        ∧ (mainRun fs now).console
            = ["🚀 Generating README files for notebook directories...",
               "❌ Error: notebooks directory not found!"])
    ∧ (fs.dirExists "notebooks" = true →
        (mainRun fs now).exitCode = 0
        ∧ (∃ doc, ("NOTEBOOKS_README.md", doc) ∈ (mainRun fs now).writes)
        ∧ ∀ kv ∈ folder_info, fs.dirExists ("notebooks/" ++ kv.fst) = false →
            ("⚠️  Folder not found: " ++ ("notebooks/" ++ kv.fst)) ∈ (mainRun fs now).console) := by
  cases hdir : fs.dirExists "notebooks" with
  | false =>
    refine ⟨by simp [mainRun, hdir], fun _ => ⟨by simp [mainRun, hdir], by simp [mainRun, hdir]⟩,
      fun h => absurd h (by simp [hdir])⟩
  | true =>
    refine ⟨by simp [mainRun, hdir], fun h => absurd h (by simp [hdir]), fun _ => ⟨?_, ?_, ?_⟩⟩
    · simp [mainRun, hdir]
    · obtain ⟨L, hL⟩ := generate_main_readme_write fs now
      refine ⟨L, ?_⟩
      have hw : (mainRun fs now).writes
          = (processFolders fs now folder_info).fst ++ (generate_main_readme fs now).fst := by
        simp [mainRun, hdir]
      rw [hw, hL]
      exact List.mem_append_right _ (List.mem_singleton.mpr rfl)
    · intro kv hkv hmiss
      have hc : (mainRun fs now).console
          = ["🚀 Generating README files for notebook directories..."]
            ++ (processFolders fs now folder_info).2.1
            ++ (generate_main_readme fs now).snd
            ++ ["\n✅ Complete! Generated README files for "
                  ++ toString (processFolders fs now folder_info).2.2 ++ " folders.",
                "📝 Files created:",
                "   - NOTEBOOKS_README.md (main overview)"]
            ++ finalListing fs := by
        simp [mainRun, hdir]
      rw [hc]
      exact List.mem_append_left _ (List.mem_append_left _ (List.mem_append_left _
        (List.mem_append_right _ (processFolders_warn fs now folder_info kv hkv hmiss))))

/-- Witness for C7 at a concrete input: a filesystem with only the base
`notebooks` directory — the run exits 0, writes the main README, and warns
about the absent `exploratory_analysis` folder. -/
theorem C7_orchestrator_witness :
    fsSample.dirExists "notebooks" = true
    ∧ (mainRun fsSample "2026-01-01 00:00").exitCode = 0
    ∧ (∃ doc, ("NOTEBOOKS_README.md", doc) ∈ (mainRun fsSample "2026-01-01 00:00").writes)
    ∧ ("⚠️  Folder not found: " ++ ("notebooks/" ++ "exploratory_analysis"))
        ∈ (mainRun fsSample "2026-01-01 00:00").console := by
  have h := (C7_orchestrator_exit fsSample "2026-01-01 00:00").2.2 (by decide)
  exact ⟨by decide, h.1, h.2.1,
    h.2.2 ("exploratory_analysis",
      { title := "🧭 Exploratory Analysis",
        description := "Initial data exploration and feature engineering using retail sales time series data.",
        objectives := [
          "Perform comprehensive data quality checks and profiling",
          "Identify temporal patterns, trends, and seasonality",
          "Engineer features for time series forecasting models"] })
      (by simp [folder_info]) (by decide)⟩

/-! ## Idempotence up to the trailing timestamp line: C8 -/

lemma generate_folder_readme_dropLast (fs : FS) (folder_path folder_key t1 t2 : String) :
    (generate_folder_readme fs folder_path folder_key t1).fst.map
        (fun w => (w.fst, w.snd.dropLast))
      = (generate_folder_readme fs folder_path folder_key t2).fst.map
        (fun w => (w.fst, w.snd.dropLast)) := by
  cases hinfo : folderInfoGet folder_key with
  | none => simp [generate_folder_readme, hinfo]
  | some info =>
    simp only [generate_folder_readme, hinfo, List.map_cons, List.map_nil]
    rw [List.dropLast_concat, List.dropLast_concat]

lemma generate_folder_readme_getLast (fs : FS) (folder_path folder_key t : String)
    (w : String × List String)
    (hw : w ∈ (generate_folder_readme fs folder_path folder_key t).fst) :
    w.snd.getLast? = some ("*Generated on " ++ t ++ "*") := by
  cases hinfo : folderInfoGet folder_key with
  | none => simp [generate_folder_readme, hinfo] at hw
  | some info =>
    simp only [generate_folder_readme, hinfo, List.mem_singleton] at hw
    subst hw
    exact List.getLast?_concat _

lemma processFolders_dropLast (fs : FS) (t1 t2 : String) (l : List (String × FolderInfo)) :
    (processFolders fs t1 l).fst.map (fun w => (w.fst, w.snd.dropLast))
      = (processFolders fs t2 l).fst.map (fun w => (w.fst, w.snd.dropLast)) := by
  induction l with
  | nil => rfl
  | cons hd tl ih =>
    cases hd' : fs.dirExists ("notebooks/" ++ hd.fst) with
    | true =>
      simp only [processFolders, hd', if_pos, List.map_append]
      rw [generate_folder_readme_dropLast fs _ _ t1 t2, ih]
    | false =>
      simp only [processFolders, hd', Bool.false_eq_true, if_neg, not_false_iff]
      exact ih

lemma processFolders_getLast (fs : FS) (t : String) (l : List (String × FolderInfo))
    (w : String × List String) (hw : w ∈ (processFolders fs t l).fst) :
    w.snd.getLast? = some ("*Generated on " ++ t ++ "*") := by
  induction l with
  | nil => cases hw
  | cons hd tl ih =>
    cases hd' : fs.dirExists ("notebooks/" ++ hd.fst) with
    | true =>
      simp only [processFolders, hd', if_pos] at hw
      rcases List.mem_append.mp hw with h1 | h2
      · exact generate_folder_readme_getLast fs _ _ t w h1
      · exact ih h2
    | false =>
      simp only [processFolders, hd', Bool.false_eq_true, if_neg, not_false_iff] at hw
      exact ih hw

lemma generate_main_readme_dropLast (fs : FS) (t1 t2 : String) :
    (generate_main_readme fs t1).fst.map (fun w => (w.fst, w.snd.dropLast))
      = (generate_main_readme fs t2).fst.map (fun w => (w.fst, w.snd.dropLast)) := by
  simp only [generate_main_readme, List.map_cons, List.map_nil]
  rw [List.dropLast_concat, List.dropLast_concat]

lemma generate_main_readme_getLast (fs : FS) (t : String) (w : String × List String)
    (hw : w ∈ (generate_main_readme fs t).fst) :
    w.snd.getLast?
      = some ("*Auto-generated on " ++ t ++ " | Run `python generate_readme.py` to update*") := by
  simp only [generate_main_readme, List.mem_singleton] at hw
  subst hw
  exact List.getLast?_concat _

/-- C8: running the generator twice over an unchanged filesystem produces
exactly the same write set, with each written document identical line-for-line
except for its trailing generation-timestamp line (the last line of every
written document is the timestamp line of its run). -/
theorem C8_idempotence (fs : FS) (t1 t2 : String) :
    (mainRun fs t1).writes.map (fun w => (w.fst, w.snd.dropLast))
      = (mainRun fs t2).writes.map (fun w => (w.fst, w.snd.dropLast))
    ∧ ∀ w ∈ (mainRun fs t1).writes,
        w.snd.getLast? = some ("*Generated on " ++ t1 ++ "*")
        ∨ w.snd.getLast?
            = some ("*Auto-generated on " ++ t1 ++ " | Run `python generate_readme.py` to update*") := by
  cases hdir : fs.dirExists "notebooks" with
  | false =>
    exact ⟨by simp [mainRun, hdir], fun w hw => by simp [mainRun, hdir] at hw⟩
  | true =>
    have h1 : (mainRun fs t1).writes
        = (processFolders fs t1 folder_info).fst ++ (generate_main_readme fs t1).fst := by
      simp [mainRun, hdir]
    have h2 : (mainRun fs t2).writes
        = (processFolders fs t2 folder_info).fst ++ (generate_main_readme fs t2).fst := by
      simp [mainRun, hdir]
    constructor
    · rw [h1, h2, List.map_append, List.map_append,
        processFolders_dropLast fs t1 t2 folder_info, generate_main_readme_dropLast fs t1 t2]
    · intro w hw
      rw [h1] at hw
      rcases List.mem_append.mp hw with hA | hB
      · exact Or.inl (processFolders_getLast fs t1 folder_info w hA)
      · exact Or.inr (generate_main_readme_getLast fs t1 w hB)

/-- Witness for C8 at a concrete input: two runs with different timestamps over
the sample filesystem produce the same documents up to the last line. -/
theorem C8_idempotence_witness :
    (mainRun fsSample "2026-01-01 00:00").writes.map (fun w => (w.fst, w.snd.dropLast))
      = (mainRun fsSample "2027-12-31 23:59").writes.map (fun w => (w.fst, w.snd.dropLast)) :=
  (C8_idempotence fsSample "2026-01-01 00:00" "2027-12-31 23:59").1

end ReadmeGen
